import Mathlib

/-!
Shallow embedding of the two card-game engines of this repository:
`src/baccarat.py` (a modulo-10 / Punto Banco game) and `src/blackjack.py`
(a 21-style game).  Pure Python functions become Lean functions; the mutable
shoe/deck becomes an explicit list threaded through the functions (both the
baccarat `shoe.pop(0)` and the blackjack `deck.pop()` are represented by
taking the head of the list of remaining cards in draw order); fallible
drawing returns `Except`/`Option`; Python ints become `Nat`/`Int` and money
amounts become `Rat`.  The one floating-point computation a claim targets
(`int(round(bet_amount * 0.95))` in the baccarat settlement) is modelled
exactly: binary64 arithmetic is simulated over `Rat` by rounding to a 53-bit
significand with ties to even, and Python's `round` is the
round-half-to-even integer rounding of the resulting double.
-/

/-- The thirteen card ranks, shared by both games (`ranks` list in
`create_shoe` of baccarat.py and `RANKS` in blackjack.py). -/
inductive Rank
  | ace | two | three | four | five | six | seven | eight | nine | ten
  | jack | queen | king
deriving DecidableEq, Fintype

/-- The four suits of blackjack.py (`SUITS`); cosmetic, never used by logic. -/
inductive Suit
  | hearts | diamonds | clubs | spades
deriving DecidableEq, Fintype

namespace Baccarat

/-- baccarat.py `card_value` (lines 37-42): A=1, 2-9 face value, 10/J/Q/K=0. -/
def card_value (rank : Rank) : ℕ :=
  match rank with
  | .ace => 1
  | .two => 2
  | .three => 3
  | .four => 4
  | .five => 5
  | .six => 6
  | .seven => 7
  | .eight => 8
  | .nine => 9
  | .ten => 0
  | .jack => 0
  | .queen => 0
  | .king => 0

/-- baccarat.py `hand_total` (lines 44-46): units digit of the value sum. -/
def hand_total (hand : List Rank) : ℕ :=
  (hand.map card_value).sum % 10

/-- baccarat.py `draw` (lines 48-51): raises ValueError on an empty shoe,
otherwise pops and returns the front card. -/
def draw (shoe : List Rank) : Except String (Rank × List Rank) :=
  match shoe with
  | [] => .error "The shoe is empty. Should reshuffle before drawing."
  | c :: rest => .ok (c, rest)

/-- baccarat.py `player_draws` (lines 53-55). -/
def player_draws (player_total : ℕ) : Bool :=
  player_total ≤ 5

/-- baccarat.py `banker_draws` (lines 57-73). -/
def banker_draws (bank_total : ℕ) (player_third_card : Option Rank) : Bool :=
  match player_third_card with
  | none => bank_total ≤ 5
  | some card =>
    let p3 := card_value card
    if bank_total ≤ 2 then true
    else if bank_total = 3 then decide (p3 ≠ 8)
    else if bank_total = 4 then decide (2 ≤ p3 ∧ p3 ≤ 7)
    else if bank_total = 5 then decide (4 ≤ p3 ∧ p3 ≤ 7)
    else if bank_total = 6 then decide (p3 = 6 ∨ p3 = 7)
    else false

/-- Fuel-bounded binary logarithm (floor of log2), total on `ℕ`;
64 units of fuel are enough for every number below `2 ^ 64`. -/
def log2fuel : ℕ → ℕ → ℕ
  | 0, _ => 0
  | fuel + 1, n => if 2 ≤ n then log2fuel fuel (n / 2) + 1 else 0

/-- Floor of the binary logarithm for the numbers in play (all below 2^64). -/
def nlog2 (n : ℕ) : ℕ := log2fuel 64 n

/-- Rounding a rational to the nearest integer with ties to even: the
behaviour of Python 3's built-in `round` on an exactly-known value. -/
def roundHalfEven (x : ℚ) : ℤ :=
  let n := Rat.floor x
  let r := x - n
  if r < 1 / 2 then n
  else if 1 / 2 < r then n + 1
  else if n % 2 = 0 then n else n + 1

/-- Integer powers of two as rationals, kept kernel-computable by working
through `Nat` exponentiation. -/
def pow2z (e : ℤ) : ℚ :=
  if 0 ≤ e then ((2 ^ e.toNat : ℕ) : ℚ) else ((2 ^ (-e).toNat : ℕ) : ℚ)⁻¹

/-- Binary exponent of a positive rational: the `e` with `2^e ≤ x < 2^(e+1)`. -/
def b64exp (x : ℚ) : ℤ :=
  if 1 ≤ x then (nlog2 (Rat.floor x).toNat : ℤ)
  else
    let y := x⁻¹
    let m := nlog2 (Rat.floor y).toNat
    if y = ((2 ^ m : ℕ) : ℚ) then -(m : ℤ) else -((m : ℤ) + 1)

/-- Round a positive rational to the nearest IEEE binary64 value (53-bit
significand, ties to even), as an exact rational.  This models the result of
CPython float arithmetic in the normal range, which is all that the
commission computation `bet_amount * 0.95` ever touches. -/
def roundB64 (x : ℚ) : ℚ :=
  if x ≤ 0 then 0
  else
    let ulp : ℚ := pow2z (b64exp x - 52)
    (roundHalfEven (x / ulp) : ℚ) * ulp

/-- The exact value of the binary64 double produced by the literal `0.95`
in baccarat.py line 92. -/
def float095 : ℚ := roundB64 (19 / 20)

/-- baccarat.py `settle_bet` (lines 75-95).  The banker-win commission branch
`int(round(bet_amount * 0.95))` converts the int bet to a double, multiplies
by the double 0.95 (each step rounding to binary64), then applies Python's
ties-to-even `round`. -/
def settle_bet (bet_type : String) (bet_amount : ℕ) (winner : String) : ℤ :=
  if winner = "tie" then
    if bet_type = "tie" then (bet_amount : ℤ) * 8
    else 0
  else if winner = "player" then
    if bet_type = "player" then (bet_amount : ℤ)
    else if bet_type = "banker" then -(bet_amount : ℤ)
    else -(bet_amount : ℤ)
  else if winner = "banker" then
    if bet_type = "banker" then
      roundHalfEven (roundB64 (roundB64 (bet_amount : ℚ) * float095))
    else if bet_type = "player" then -(bet_amount : ℤ)
    else -(bet_amount : ℤ)
  else -(bet_amount : ℤ)

/-- The round record returned by baccarat.py `play_round` (lines 138-146). -/
structure Round where
  player_hand : List Rank
  banker_hand : List Rank
  player_total : ℕ
  banker_total : ℕ
  winner : String
  player_third : Option Rank
  banker_third : Option Rank
deriving DecidableEq

/-- baccarat.py `play_round` lines 131-136: winner is the higher total,
equal totals tie. -/
def decide_winner (p_total b_total : ℕ) : String :=
  if p_total > b_total then "player"
  else if b_total > p_total then "banker"
  else "tie"

/-- baccarat.py `play_round` lines 127-146: recompute both totals after all
draws and assemble the returned record. -/
def mk_round (player banker : List Rank) (player_third banker_third : Option Rank) :
    Round :=
  { player_hand := player
    banker_hand := banker
    player_total := hand_total player
    banker_total := hand_total banker
    winner := decide_winner (hand_total player) (hand_total banker)
    player_third := player_third
    banker_third := banker_third }

/-- baccarat.py `play_round` (lines 101-146), also returning the remaining
shoe (the Python code mutates the shoe in place).  Deals two cards to the
player then two to the banker, checks naturals, applies the player and
banker third-card rules, and assembles the outcome. -/
def play_round (shoe : List Rank) : Except String (Round × List Rank) :=
  match draw shoe with
  | .error e => .error e
  | .ok (c1, s1) =>
  match draw s1 with
  | .error e => .error e
  | .ok (c2, s2) =>
  match draw s2 with
  | .error e => .error e
  | .ok (c3, s3) =>
  match draw s3 with
  | .error e => .error e
  | .ok (c4, s4) =>
    let player := [c1, c2]
    let banker := [c3, c4]
    let p_total := hand_total player
    let b_total := hand_total banker
    if p_total = 8 ∨ p_total = 9 ∨ b_total = 8 ∨ b_total = 9 then
      .ok (mk_round player banker none none, s4)
    else
      if player_draws p_total then
        match draw s4 with
        | .error e => .error e
        | .ok (c5, s5) =>
          let player := player ++ [c5]
          if banker_draws b_total (some c5) then
            match draw s5 with
            | .error e => .error e
            | .ok (c6, s6) =>
              .ok (mk_round player (banker ++ [c6]) (some c5) (some c6), s6)
          else
            .ok (mk_round player banker (some c5) none, s5)
      else
        if banker_draws b_total none then
          match draw s4 with
          | .error e => .error e
          | .ok (c5, s5) =>
            .ok (mk_round player (banker ++ [c5]) none (some c5), s5)
        else
          .ok (mk_round player banker none none, s4)

end Baccarat

/-- Modelled from the spec: "standard commercial rounding to nearest integer
cent, ties away from zero" — nearest-integer rounding sending a tie upward
for the positive amounts in play. -/
def specRoundTiesAway (x : ℚ) : ℤ := Rat.floor (x + 1 / 2)

namespace Blackjack

/-- A blackjack card: rank and (cosmetic) suit, as the `(r, s)` tuples of
blackjack.py. -/
def Card := Rank × Suit
deriving DecidableEq

/-- The numeric value of the string rank under Python `int(r)`; only ever
applied to ranks 2-10 (the `else` branch of `hand_value`). -/
def rank_face (r : Rank) : ℕ :=
  match r with
  | .two => 2
  | .three => 3
  | .four => 4
  | .five => 5
  | .six => 6
  | .seven => 7
  | .eight => 8
  | .nine => 9
  | .ten => 10
  | _ => 0

/-- blackjack.py `hand_value` lines 49-51: while value > 21 and an ace is
still counted as 11, subtract 10 and use up one such ace. -/
def downgrade : ℕ → ℕ → ℕ
  | value, 0 => value
  | value, aces + 1 => if value > 21 then downgrade (value - 10) aces else value

/-- blackjack.py `hand_value` (lines 36-53): sum with J/Q/K=10 and A=11
while counting aces, downgrade aces as needed, then compute the `is_soft`
flag exactly as line 52 does (note the flag tests `value - 10 >= 11`, i.e.
`value = 21`, not whether an ace is still counted as 11). -/
def hand_value (hand : List Card) : ℕ × Bool :=
  let va := hand.foldl
    (fun (acc : ℕ × ℕ) c =>
      if c.1 = Rank.jack ∨ c.1 = Rank.queen ∨ c.1 = Rank.king then
        (acc.1 + 10, acc.2)
      else if c.1 = Rank.ace then (acc.1 + 11, acc.2 + 1)
      else (acc.1 + rank_face c.1, acc.2))
    (0, 0)
  let value := downgrade va.1 va.2
  let is_soft := (hand.any fun c => c.1 == Rank.ace) && decide (value ≤ 21) &&
    (hand.any fun c => c.1 == Rank.ace) && decide (value - 10 ≥ 11)
  (value, is_soft)

/-- blackjack.py `is_blackjack` (lines 55-57). -/
def is_blackjack (hand : List Card) : Bool :=
  (hand_value hand).1 == 21 && hand.length == 2

/-- blackjack.py `settle_bet` (lines 119-135), with money as exact
rationals. -/
def settle_bet (player_hand dealer_hand : List Card) (bet : ℚ) : ℚ :=
  let pv := (hand_value player_hand).1
  let dv := (hand_value dealer_hand).1
  if is_blackjack player_hand && !is_blackjack dealer_hand then bet * 1.5
  else if is_blackjack player_hand && is_blackjack dealer_hand then 0
  else if pv > 21 then -bet
  else if dv > 21 then bet
  else if pv > dv then bet
  else if pv < dv then -bet
  else 0

/-- blackjack.py `dealer_turn` (lines 108-117): hit while below 17, stand on
all 17s.  The deck list is in draw order; an empty deck makes the Python
`deck.pop()` raise, modelled as `none`.  Returns the dealer hand and the
remaining deck. -/
def dealer_turn : List Card → List Card → Option (List Card × List Card)
  | [], hand =>
    if (hand_value hand).1 < 17 then none else some (hand, [])
  | c :: rest, hand =>
    if (hand_value hand).1 < 17 then dealer_turn rest (hand ++ [c])
    else some (hand, c :: rest)

/-- A valid player choice in blackjack.py `player_turn`; invalid console
input only reprompts and is not modelled. -/
inductive Action
  | hit | stand | double
deriving DecidableEq

/-- blackjack.py `player_turn` (lines 86-106), driven by a script of
choices in place of console input (the `dealer_upcard` parameter of the
source is display-only and omitted).  Busts end the turn before any input
is read; a double request is accepted only when `can_double` holds and the
hand has exactly two cards, and is otherwise rejected like invalid input
(the code reprompts).  Returns the action tag, the hand, and the remaining
deck; `none` models running out of scripted input or of cards. -/
def player_turn : List Action → List Card → List Card → Bool →
    Option (String × List Card × List Card)
  | [], deck, hand, _ =>
    if (hand_value hand).1 > 21 then some ("bust", hand, deck) else none
  | a :: rest, deck, hand, can_double =>
    if (hand_value hand).1 > 21 then some ("bust", hand, deck)
    else
      match a with
      | Action.hit =>
        match deck with
        | [] => none
        | c :: deck2 => player_turn rest deck2 (hand ++ [c]) can_double
      | Action.stand => some ("stand", hand, deck)
      | Action.double =>
        if can_double && hand.length == 2 then some ("double", hand, deck)
        else player_turn rest deck hand can_double

/-- What one blackjack round reports and returns (blackjack.py `play_round`
return value plus the arguments of its `print_round_result` calls). -/
structure BJResult where
  balance : ℚ
  net : ℚ
  bet : ℚ
  player_hand : List Card
  dealer_hand : List Card
deriving DecidableEq

/-- blackjack.py `play_round` lines 194-200: dealer turn, settle, pay. -/
def dealer_phase (deck : List Card) (balance bet : ℚ)
    (player_hand dealer_hand : List Card) : Option BJResult :=
  match dealer_turn deck dealer_hand with
  | none => none
  | some (dealer_hand, _) =>
    let net := settle_bet player_hand dealer_hand bet
    some ⟨balance + net, net, bet, player_hand, dealer_hand⟩

/-- blackjack.py `play_round` lines 188-200: the bust check shared by both
double-down sub-branches, then the dealer phase. -/
def after_double (deck : List Card) (balance bet : ℚ)
    (player_hand dealer_hand : List Card) : Option BJResult :=
  if (hand_value player_hand).1 > 21 then
    let net := -bet
    some ⟨balance + net, net, bet, player_hand, dealer_hand⟩
  else dealer_phase deck balance bet player_hand dealer_hand

/-- blackjack.py `play_round` (lines 159-200), from the initial deal on (the
reshuffle check and `take_bet` belong to the excluded I/O layer; the bet is
passed in).  The deck list is in draw order. -/
def play_round (deck : List Card) (balance bet : ℚ)
    (choices : List Action) : Option BJResult :=
  match deck with
  | d1 :: d2 :: d3 :: d4 :: rest =>
    let player_hand := [d1, d2]
    let dealer_hand := [d3, d4]
    if is_blackjack player_hand || is_blackjack dealer_hand then
      let net := settle_bet player_hand dealer_hand bet
      some ⟨balance + net, net, bet, player_hand, dealer_hand⟩
    else
      match player_turn choices rest player_hand true with
      | none => none
      | some (action, player_hand, deck2) =>
        if action = "bust" then
          let net := -bet
          some ⟨balance + net, net, bet, player_hand, dealer_hand⟩
        else if action = "double" then
          if bet * 2 > balance then
            match deck2 with
            | [] => none
            | c :: deck3 =>
              after_double deck3 balance bet (player_hand ++ [c]) dealer_hand
          else
            match deck2 with
            | [] => none
            | c :: deck3 =>
              after_double deck3 (balance - bet) (bet * 2) (player_hand ++ [c])
                dealer_hand
        else
          dealer_phase deck2 balance bet player_hand dealer_hand
  | _ => none

end Blackjack

/-! ## Theorems about the embedded engines -/

/-- Claim C7: the modulo-10 score is the sum of card values (A=1, 2-9 face,
10/J/Q/K=0) taken mod 10; consequently it always lies in [0,9] and is
invariant under any permutation of the hand's cards. -/
theorem hand_total_mod10 :
    (∀ h : List Rank, Baccarat.hand_total h = (h.map Baccarat.card_value).sum % 10) ∧
    (Baccarat.card_value Rank.ace = 1 ∧ Baccarat.card_value Rank.two = 2 ∧
      Baccarat.card_value Rank.three = 3 ∧ Baccarat.card_value Rank.four = 4 ∧
      Baccarat.card_value Rank.five = 5 ∧ Baccarat.card_value Rank.six = 6 ∧
      Baccarat.card_value Rank.seven = 7 ∧ Baccarat.card_value Rank.eight = 8 ∧
      Baccarat.card_value Rank.nine = 9 ∧ Baccarat.card_value Rank.ten = 0 ∧
      Baccarat.card_value Rank.jack = 0 ∧ Baccarat.card_value Rank.queen = 0 ∧
      Baccarat.card_value Rank.king = 0) ∧
    (∀ h : List Rank, Baccarat.hand_total h ≤ 9) ∧
    (∀ h₁ h₂ : List Rank, h₁.Perm h₂ →
      Baccarat.hand_total h₁ = Baccarat.hand_total h₂) := by
  refine ⟨fun h => rfl, by decide, fun h => ?_, fun h₁ h₂ hp => ?_⟩
  · simp only [Baccarat.hand_total]
    omega
  · simp only [Baccarat.hand_total]
    rw [List.Perm.sum_eq (hp.map Baccarat.card_value)]

/-- Witness for the permutation part of the claim C7 theorem at a concrete
pair of hands. -/
theorem hand_total_mod10_wit :
    ([Rank.ace, Rank.five].Perm [Rank.five, Rank.ace]) ∧
      Baccarat.hand_total [Rank.ace, Rank.five] =
        Baccarat.hand_total [Rank.five, Rank.ace] :=
  ⟨by decide, hand_total_mod10.2.2.2 _ _ (by decide)⟩

/-- Claim C2: the banker third-card decision is a pure function of the
banker total and the player's third-card value (or its absence).  With a
third card of value p3 the banker draws iff: total ≤ 2 always; total 3 and
p3 ≠ 8; total 4 and 2 ≤ p3 ≤ 7; total 5 and 4 ≤ p3 ≤ 7; total 6 and
p3 ∈ {6,7}; never at total 7.  Without one, the banker draws iff its total
is at most 5. -/
theorem banker_draws_table (t : ℕ) (ht : t ≤ 9) :
    (∀ c : Rank,
      Baccarat.banker_draws t (some c) = true ↔
        (t ≤ 2 ∨ (t = 3 ∧ Baccarat.card_value c ≠ 8) ∨
          (t = 4 ∧ 2 ≤ Baccarat.card_value c ∧ Baccarat.card_value c ≤ 7) ∨
          (t = 5 ∧ 4 ≤ Baccarat.card_value c ∧ Baccarat.card_value c ≤ 7) ∨
          (t = 6 ∧ (Baccarat.card_value c = 6 ∨ Baccarat.card_value c = 7)))) ∧
    (Baccarat.banker_draws t none = true ↔ t ≤ 5) := by
  interval_cases t <;> exact ⟨by decide, by decide⟩

/-- Witness for the claim C2 theorem at banker total 6. -/
theorem banker_draws_table_wit :
    (6 : ℕ) ≤ 9 ∧ (Baccarat.banker_draws 6 none = true ↔ (6 : ℕ) ≤ 5) :=
  ⟨by decide, (banker_draws_table 6 (by decide)).2⟩

/-- Claim C6: a modulo-10 round ends at once when an initial total is 8 or
9, keeping both two-card hands; otherwise the player draws a third card iff
its total is at most 5 and the banker then follows its policy; the returned
record recomputes both totals from the final hands and names the
higher-total side the winner, with a tie on equal totals. -/
theorem play_round_flow (c1 c2 c3 c4 c5 c6 : Rank) (rest : List Rank) :
    (Baccarat.play_round (c1 :: c2 :: c3 :: c4 :: c5 :: c6 :: rest) =
      (if Baccarat.hand_total [c1, c2] = 8 ∨ Baccarat.hand_total [c1, c2] = 9 ∨
          Baccarat.hand_total [c3, c4] = 8 ∨ Baccarat.hand_total [c3, c4] = 9 then
        .ok (Baccarat.mk_round [c1, c2] [c3, c4] none none, c5 :: c6 :: rest)
      else if Baccarat.hand_total [c1, c2] ≤ 5 then
        if Baccarat.banker_draws (Baccarat.hand_total [c3, c4]) (some c5) then
          .ok (Baccarat.mk_round [c1, c2, c5] [c3, c4, c6] (some c5) (some c6), rest)
        else
          .ok (Baccarat.mk_round [c1, c2, c5] [c3, c4] (some c5) none, c6 :: rest)
      else if Baccarat.banker_draws (Baccarat.hand_total [c3, c4]) none then
        .ok (Baccarat.mk_round [c1, c2] [c3, c4, c5] none (some c5), c6 :: rest)
      else
        .ok (Baccarat.mk_round [c1, c2] [c3, c4] none none, c5 :: c6 :: rest))) ∧
    (∀ (p b : List Rank) (pt bt : Option Rank),
      (Baccarat.mk_round p b pt bt).player_total = Baccarat.hand_total p ∧
      (Baccarat.mk_round p b pt bt).banker_total = Baccarat.hand_total b ∧
      (Baccarat.hand_total p > Baccarat.hand_total b →
        (Baccarat.mk_round p b pt bt).winner = "player") ∧
      (Baccarat.hand_total b > Baccarat.hand_total p →
        (Baccarat.mk_round p b pt bt).winner = "banker") ∧
      (Baccarat.hand_total p = Baccarat.hand_total b →
        (Baccarat.mk_round p b pt bt).winner = "tie")) := by
  constructor
  · simp only [Baccarat.play_round, Baccarat.draw]
    by_cases h : Baccarat.hand_total [c1, c2] = 8 ∨ Baccarat.hand_total [c1, c2] = 9 ∨
        Baccarat.hand_total [c3, c4] = 8 ∨ Baccarat.hand_total [c3, c4] = 9
    · simp [h]
    · by_cases h5 : Baccarat.hand_total [c1, c2] ≤ 5
      · cases hb : Baccarat.banker_draws (Baccarat.hand_total [c3, c4]) (some c5) <;>
          simp [h, h5, hb, Baccarat.player_draws]
      · cases hb : Baccarat.banker_draws (Baccarat.hand_total [c3, c4]) none <;>
          simp [h, h5, hb, Baccarat.player_draws]
  · intro p b pt bt
    refine ⟨rfl, rfl, fun hgt => ?_, fun hgt => ?_, fun heq => ?_⟩
    · simp only [Baccarat.mk_round, Baccarat.decide_winner]
      rw [if_pos hgt]
    · simp only [Baccarat.mk_round, Baccarat.decide_winner]
      rw [if_neg (by omega), if_pos hgt]
    · simp only [Baccarat.mk_round, Baccarat.decide_winner]
      rw [if_neg (by omega), if_neg (by omega)]

/-- Witness for the winner-selection part of the claim C6 theorem at
concrete totals 5 vs 4. -/
theorem play_round_flow_wit :
    Baccarat.hand_total [Rank.nine, Rank.six] > Baccarat.hand_total [Rank.two, Rank.two] ∧
      (Baccarat.mk_round [Rank.nine, Rank.six] [Rank.two, Rank.two] none none).winner =
        "player" :=
  ⟨by decide,
    ((play_round_flow Rank.ace Rank.ace Rank.ace Rank.ace Rank.ace Rank.ace []).2
        [Rank.nine, Rank.six] [Rank.two, Rank.two] none none).2.2.1 (by decide)⟩

/-- Claim C9: drawing from an empty shoe fails fast with the empty-shoe
error and never yields a default card; drawing from a nonempty shoe removes
and returns its front card; the blackjack dealer hitting on an empty deck
likewise fails (the raised IndexError, modelled as `none`). -/
theorem draw_empty_fails :
    Baccarat.draw [] =
        Except.error "The shoe is empty. Should reshuffle before drawing." ∧
    (∀ (c : Rank) (s : List Rank), Baccarat.draw (c :: s) = Except.ok (c, s)) ∧
    (∀ hand : List Blackjack.Card,
      Blackjack.dealer_turn [] hand =
        if (Blackjack.hand_value hand).1 < 17 then none else some (hand, [])) :=
  ⟨rfl, fun _ _ => rfl, fun _ => rfl⟩

/-- Claim C10: the modulo-10 settlement is total over arbitrary bet-type
strings and never fails: on a player or banker win, every bet type other
than the winning side itself — tie included, and any string outside the
enumeration — ends at the default branch returning the negated amount, and
on a tie every non-tie bet type returns 0. -/
theorem settle_bet_default_loss (bt : String) (a : ℕ) :
    (bt ≠ "player" → Baccarat.settle_bet bt a "player" = -(a : ℤ)) ∧
    (bt ≠ "banker" → Baccarat.settle_bet bt a "banker" = -(a : ℤ)) ∧
    (bt ≠ "tie" → Baccarat.settle_bet bt a "tie" = 0) := by
  refine ⟨fun h => ?_, fun h => ?_, fun h => ?_⟩
  · unfold Baccarat.settle_bet
    rw [if_neg (by decide), if_pos rfl, if_neg h]
    split_ifs <;> rfl
  · unfold Baccarat.settle_bet
    rw [if_neg (by decide), if_neg (by decide), if_pos rfl, if_neg h]
    split_ifs <;> rfl
  · unfold Baccarat.settle_bet
    rw [if_pos rfl, if_neg h]

/-- Witness for the claim C10 theorem: a tie bet during a player win loses
the full amount. -/
theorem settle_bet_default_loss_wit :
    ("tie" : String) ≠ "player" ∧
      Baccarat.settle_bet "tie" 7 "player" = -((7 : ℕ) : ℤ) :=
  ⟨by decide, (settle_bet_default_loss "tie" 7).1 (by decide)⟩

/-- Claim C1 (code defect): `hand_value` computes the final sum exactly as
claimed, but its soft flag is true iff the hand holds an ace and the final
value is exactly 21.  So the soft 16 hand A+5, whose ace is counted as 11,
reports the flag false, while the hard three-card 21 A+K+Q, whose ace is
forced to count as 1, reports it true: the claimed "iff an ace remains
counted as 11" fails in both directions. -/
theorem hand_value_soft_flag_mismatch :
    Blackjack.hand_value [(Rank.ace, Suit.spades), (Rank.five, Suit.hearts)] =
        (16, false) ∧
      Blackjack.hand_value [(Rank.ace, Suit.spades), (Rank.king, Suit.spades),
        (Rank.queen, Suit.spades)] = (21, true) :=
  ⟨by decide, by decide⟩

/-- Claim C3: the 21-style settlement evaluates its cases in the claimed
order: player natural against a non-natural dealer (a dealer 21 on three or
more cards in particular) pays 1.5 times the bet, two naturals push, a
player score above 21 loses the bet even when the dealer also busts, then a
dealer bust pays the bet, and otherwise the higher score wins with equal
scores pushing; a natural is exactly a two-card hand valued 21. -/
theorem settle_bet_case_order (p d : List Blackjack.Card) (bet : ℚ) :
    (Blackjack.is_blackjack p = true → Blackjack.is_blackjack d = false →
      Blackjack.settle_bet p d bet = bet * 1.5) ∧
    (Blackjack.is_blackjack p = true → (Blackjack.hand_value d).1 = 21 →
      d.length ≠ 2 → Blackjack.settle_bet p d bet = bet * 1.5) ∧
    (Blackjack.is_blackjack p = true → Blackjack.is_blackjack d = true →
      Blackjack.settle_bet p d bet = 0) ∧
    ((Blackjack.hand_value p).1 > 21 → Blackjack.settle_bet p d bet = -bet) ∧
    (Blackjack.is_blackjack p = false → (Blackjack.hand_value p).1 ≤ 21 →
      (Blackjack.hand_value d).1 > 21 → Blackjack.settle_bet p d bet = bet) ∧
    (Blackjack.is_blackjack p = false → (Blackjack.hand_value p).1 ≤ 21 →
      (Blackjack.hand_value d).1 ≤ 21 →
      ((Blackjack.hand_value d).1 < (Blackjack.hand_value p).1 →
        Blackjack.settle_bet p d bet = bet) ∧
      ((Blackjack.hand_value p).1 < (Blackjack.hand_value d).1 →
        Blackjack.settle_bet p d bet = -bet) ∧
      ((Blackjack.hand_value p).1 = (Blackjack.hand_value d).1 →
        Blackjack.settle_bet p d bet = 0)) ∧
    (∀ h : List Blackjack.Card,
      Blackjack.is_blackjack h = true ↔
        ((Blackjack.hand_value h).1 = 21 ∧ h.length = 2)) := by
  have hbj : ∀ h : List Blackjack.Card,
      Blackjack.is_blackjack h = true ↔
        ((Blackjack.hand_value h).1 = 21 ∧ h.length = 2) := by
    intro h
    simp [Blackjack.is_blackjack]
  refine ⟨fun h1 h2 => ?_, fun h1 h21 hlen => ?_, fun h1 h2 => ?_, fun hgt => ?_,
    fun h1 hle hgt => ?_, fun h1 hp hd => ⟨fun hlt => ?_, fun hlt => ?_, fun heq => ?_⟩, hbj⟩
  · simp [Blackjack.settle_bet, h1, h2]
  · have h2 : Blackjack.is_blackjack d = false := by
      cases hb : Blackjack.is_blackjack d with
      | false => rfl
      | true => exact absurd ((hbj d).mp hb).2 hlen
    simp [Blackjack.settle_bet, h1, h2]
  · simp [Blackjack.settle_bet, h1, h2]
  · have h1 : Blackjack.is_blackjack p = false := by
      cases hb : Blackjack.is_blackjack p with
      | false => rfl
      | true => exact absurd ((hbj p).mp hb).1 (by omega)
    simp [Blackjack.settle_bet, h1, hgt]
  · have hnp : ¬((Blackjack.hand_value p).1 > 21) := by omega
    simp [Blackjack.settle_bet, h1, hnp, hgt]
  · have hnp : ¬((Blackjack.hand_value p).1 > 21) := by omega
    have hnd : ¬((Blackjack.hand_value d).1 > 21) := by omega
    simp [Blackjack.settle_bet, h1, hnp, hnd, hlt]
  · have hnp : ¬((Blackjack.hand_value p).1 > 21) := by omega
    have hnd : ¬((Blackjack.hand_value d).1 > 21) := by omega
    have hngt : ¬((Blackjack.hand_value d).1 < (Blackjack.hand_value p).1) := by omega
    simp [Blackjack.settle_bet, h1, hnp, hnd, hngt, hlt]
  · have hnp : ¬((Blackjack.hand_value p).1 > 21) := by omega
    have hnd : ¬((Blackjack.hand_value d).1 > 21) := by omega
    simp [Blackjack.settle_bet, h1, hnp, hnd, heq]

/-- Witness for the claim C3 theorem at the spec's own example: the player's
natural A+K beats the dealer's three-card 21 at the 3:2 rate. -/
theorem settle_bet_case_order_wit :
    Blackjack.is_blackjack [(Rank.ace, Suit.spades), (Rank.king, Suit.spades)] = true ∧
      (Blackjack.hand_value [(Rank.seven, Suit.spades), (Rank.nine, Suit.spades),
        (Rank.five, Suit.spades)]).1 = 21 ∧
      [(Rank.seven, Suit.spades), (Rank.nine, Suit.spades),
        (Rank.five, Suit.spades)].length ≠ 2 ∧
      Blackjack.settle_bet [(Rank.ace, Suit.spades), (Rank.king, Suit.spades)]
        [(Rank.seven, Suit.spades), (Rank.nine, Suit.spades), (Rank.five, Suit.spades)]
        10 = 10 * 1.5 :=
  ⟨by decide, by decide, by decide,
    (settle_bet_case_order _ _ 10).2.1 (by decide) (by decide) (by decide)⟩

/-- Claim C4 (counterexample): on a banker bet of 30 the code pays
int(round(30 * 0.95)) = 28 — the binary64 product is exactly 28.5 and
Python's round takes ties to even — while rounding to the nearest integer
with ties away from zero would give 29. -/
theorem banker_commission_not_ties_away :
    Baccarat.settle_bet "banker" 30 "banker" = 28 ∧
    specRoundTiesAway ((30 : ℚ) * (19 / 20)) = 29 ∧
    Baccarat.settle_bet "banker" 30 "banker" ≠
      specRoundTiesAway ((30 : ℚ) * (19 / 20)) :=
  ⟨by with_unfolding_all decide, by with_unfolding_all decide,
    by with_unfolding_all decide⟩

set_option maxRecDepth 8000 in
/-- Claim C4 (amended): a banker win pays round(amount x 0.95) rounded to
the nearest integer with ties TO EVEN (Python's round applied to the exact
binary64 product); for every amount up to 200 this coincides with
half-to-even rounding of the exact product 19a/20, and a bet of 100 on
banker yields net +95 exactly. -/
theorem banker_commission_half_even :
    (∀ a : ℕ, a ≤ 200 →
      Baccarat.settle_bet "banker" a "banker" =
        Baccarat.roundHalfEven ((a : ℚ) * (19 / 20))) ∧
    Baccarat.settle_bet "banker" 100 "banker" = 95 :=
  ⟨by with_unfolding_all decide, by with_unfolding_all decide⟩

/-- Witness for the claim C4 amended theorem at amount 30. -/
theorem banker_commission_half_even_wit :
    (30 : ℕ) ≤ 200 ∧
      Baccarat.settle_bet "banker" 30 "banker" =
        Baccarat.roundHalfEven ((30 : ℚ) * (19 / 20)) :=
  ⟨by decide, banker_commission_half_even.1 30 (by decide)⟩

/-- Claim C5 (counterexample): both settlement functions return a bare
number, so a zero-amount win settles to the very same value 0 as a push and
no discrete tag distinguishes them: a player bet of amount 0 on a player
win equals the pushed player bet on a tie, and a winning 19-vs-18 blackjack
hand at stake 0 equals a pushed 19-vs-19 hand. -/
theorem settlement_push_zero_win_conflated :
    Baccarat.settle_bet "player" 0 "player" = Baccarat.settle_bet "player" 0 "tie" ∧
    Blackjack.settle_bet [(Rank.ten, Suit.spades), (Rank.nine, Suit.hearts)]
        [(Rank.ten, Suit.clubs), (Rank.eight, Suit.spades)] 0 =
      Blackjack.settle_bet [(Rank.ten, Suit.spades), (Rank.nine, Suit.hearts)]
        [(Rank.ten, Suit.clubs), (Rank.nine, Suit.spades)] 0 :=
  ⟨by decide, by with_unfolding_all decide⟩

/-- Claim C5 (amended): the settlement functions return a bare signed
number, not a structured tagged result: a push is encoded as the number 0
(player/banker bets on a tie in the modulo-10 game; equal scores or a
double natural in the 21-style game), so only the round's winner tag — not
the settlement value — can distinguish a push from a zero-amount win. -/
theorem settlement_bare_number :
    (∀ a : ℕ, Baccarat.settle_bet "player" a "tie" = 0 ∧
      Baccarat.settle_bet "banker" a "tie" = 0) ∧
    (∀ (p d : List Blackjack.Card) (bet : ℚ),
      Blackjack.is_blackjack p = Blackjack.is_blackjack d →
      (Blackjack.hand_value p).1 = (Blackjack.hand_value d).1 →
      (Blackjack.hand_value p).1 ≤ 21 →
      Blackjack.settle_bet p d bet = 0) := by
  refine ⟨fun a => ⟨rfl, rfl⟩, fun p d bet h1 h2 h3 => ?_⟩
  cases hb : Blackjack.is_blackjack p with
  | false =>
    have hd : Blackjack.is_blackjack d = false := by rw [← h1, hb]
    have hnp : ¬((Blackjack.hand_value p).1 > 21) := by omega
    have hnd : ¬((Blackjack.hand_value d).1 > 21) := by omega
    simp [Blackjack.settle_bet, hb, hd, hnp, hnd, h2]
  | true =>
    have hd : Blackjack.is_blackjack d = true := by rw [← h1, hb]
    simp [Blackjack.settle_bet, hb, hd]

/-- Witness for the claim C5 amended theorem at a concrete pushed
19-vs-19 round with stake 5. -/
theorem settlement_bare_number_wit :
    Blackjack.is_blackjack [(Rank.ten, Suit.spades), (Rank.nine, Suit.hearts)] =
        Blackjack.is_blackjack [(Rank.ten, Suit.diamonds), (Rank.nine, Suit.clubs)] ∧
      (Blackjack.hand_value [(Rank.ten, Suit.spades), (Rank.nine, Suit.hearts)]).1 =
        (Blackjack.hand_value [(Rank.ten, Suit.diamonds), (Rank.nine, Suit.clubs)]).1 ∧
      (Blackjack.hand_value [(Rank.ten, Suit.spades), (Rank.nine, Suit.hearts)]).1 ≤ 21 ∧
      Blackjack.settle_bet [(Rank.ten, Suit.spades), (Rank.nine, Suit.hearts)]
        [(Rank.ten, Suit.diamonds), (Rank.nine, Suit.clubs)] 5 = 0 :=
  ⟨by decide, by decide, by decide,
    settlement_bare_number.2 _ _ 5 (by decide) (by decide) (by decide)⟩

/-- Claim C8 (code defect): doubling down is offered only as the first
decision of a two-card hand with sufficient funds, deals exactly one card,
doubles the bet and ends the turn even on a bust — but a bust after
doubling costs three times the original bet instead of the doubled bet:
with balance 100, bet 10 and a busting third card the round ends at
balance 70 (the code deducts the extra bet upfront and then also applies
the full doubled-bet loss), while losing only the doubled bet would leave
100 - 2*10 = 80. -/
theorem double_down_bust_overcharge :
    Blackjack.play_round
        [(Rank.ten, Suit.spades), (Rank.nine, Suit.hearts), (Rank.ten, Suit.clubs),
          (Rank.eight, Suit.spades), (Rank.ten, Suit.diamonds)]
        100 10 [Blackjack.Action.double] =
      some ⟨70, -20, 20,
        [(Rank.ten, Suit.spades), (Rank.nine, Suit.hearts), (Rank.ten, Suit.diamonds)],
        [(Rank.ten, Suit.clubs), (Rank.eight, Suit.spades)]⟩ ∧
    (70 : ℚ) ≠ 100 - 2 * 10 :=
  ⟨by with_unfolding_all decide, by norm_num⟩
